import Mathlib

/-!
Formal model of the wms-c repository (a WMS-C GetCapabilities / ServiceException
XML document builder).  The JavaScript source is embedded shallowly:

* JS objects passed through `xml-js`'s compact representation become the
  `Node`/`Children` tree below.  A JS object key mapping to an array of sibling
  elements (for example the repeated `Format` or `BoundingBox` entries) is
  represented by repeated entries with the same tag, which is exactly the
  sibling sequence the serializer emits.
* JS `throw` is modelled with `Except String`; a builder that throws returns
  `.error msg`.
* JS numbers are modelled as `ℚ` (exact rationals) and `ℤ` for the integer
  zoom/indentation parameters; JS string/number truthiness (`!x`, `x || d`) is
  modelled by `truthyS` / `jsOrStr` / `jsOrInt`.
* `clean` (the `JSON.parse(JSON.stringify(..))` prune of `undefined` values in
  the source) is reflected directly in the construction of each node: an
  attribute or child whose value would be `undefined` is not emitted, while a
  sub-object that merely contains an `undefined` `_text` (the `Abstract`
  element with no abstract supplied) stays as an empty element, exactly as the
  JSON round trip leaves it.
-/

namespace WmsC

/-- Attribute values appearing in the generated documents: strings or numbers. -/
inductive AttrVal where
  | str : String → AttrVal
  | num : ℚ → AttrVal
deriving DecidableEq

mutual

/-- A compact XML element: attributes, optional text, and an ordered list of
named children (`Children`). -/
inductive Node where
  | elem : List (String × AttrVal) → Option String → Children → Node
deriving DecidableEq

/-- Ordered sequence of tagged child elements. -/
inductive Children where
  | nil : Children
  | cons : String → Node → Children → Children
deriving DecidableEq

end

/-- Build a `Children` sequence from a list of tagged nodes. -/
def Children.ofList : List (String × Node) → Children
  | [] => .nil
  | (t, n) :: rest => .cons t n (Children.ofList rest)

/-- First child carrying the given tag. -/
def Children.findNamed (tag : String) : Children → Option Node
  | .nil => none
  | .cons t n rest => if t = tag then some n else Children.findNamed tag rest

/-- All children carrying the given tag, in document order. -/
def Children.filterNamed (tag : String) : Children → List Node
  | .nil => []
  | .cons t n rest =>
    if t = tag then n :: Children.filterNamed tag rest else Children.filterNamed tag rest

/-- First child of a node with the given tag. -/
def Node.childNamed (n : Node) (tag : String) : Option Node :=
  match n with
  | .elem _ _ cs => cs.findNamed tag

/-- All children of a node with the given tag. -/
def Node.childrenNamed (n : Node) (tag : String) : List Node :=
  match n with
  | .elem _ _ cs => cs.filterNamed tag

/-- Text content of a node. -/
def Node.text : Node → Option String
  | .elem _ t _ => t

/-- Attribute lookup on a node. -/
def Node.attr (n : Node) (k : String) : Option AttrVal :=
  match n with
  | .elem attrs _ _ => attrs.lookup k

/-- A whole document: XML declaration attributes plus the single root element. -/
structure XmlDoc where
  decl : List (String × AttrVal)
  rootTag : String
  root : Node
deriving DecidableEq

/-- Bounding box `[west, south, east, north]` (the `BBox` tuple of the source). -/
structure BBoxT where
  west : ℚ
  south : ℚ
  east : ℚ
  north : ℚ
deriving DecidableEq

/-- The `Options` record taken by `getCapabilities`.  Every field an absent JS
property would leave `undefined` is an `Option`. -/
structure ServiceOptions where
  title : Option String := none
  url : Option String := none
  format : Option String := none
  identifier : Option String := none
  minzoom : Option Int := none
  maxzoom : Option Int := none
  spaces : Option Int := none
  abstract : Option String := none
  bbox : Option BBoxT := none
  keywords : Option (List String) := none
  accessConstraints : Option String := none
  fees : Option String := none
deriving DecidableEq

/-- The options record taken by `exception`. -/
structure ExceptionOptions where
  spaces : Option Int := none
deriving DecidableEq

/-- JS truthiness of an optional string: `undefined` and the empty string are
falsy, every other string is truthy. -/
def truthyS : Option String → Bool
  | none => false
  | some s => !(s == "")

/-- JS `v || d` for an optional string `v`: the default is taken when `v` is
`undefined` or the empty string. -/
def jsOrStr (v : Option String) (d : String) : String :=
  match v with
  | none => d
  | some s => if s = "" then d else s

/-- JS `v || d` for an optional number `v`: the default is taken when `v` is
`undefined` or `0`. -/
def jsOrInt (v : Option Int) (d : Int) : Int :=
  match v with
  | none => d
  | some n => if n = 0 then d else n

/-- `const SPACES = 2` -/
def SPACES : Int := 2

/-- `const BBOX = [-180.0, -85.0511287798, 180.0, 85.0511287798]` -/
def BBOX : BBoxT := ⟨-180, -85.0511287798, 180, 85.0511287798⟩

/-- `const BBOX_METERS = [-20037508.3428, -20037508.3428, 20037508.3428, 20037508.3428]` -/
def BBOX_METERS : BBoxT := ⟨-20037508.3428, -20037508.3428, 20037508.3428, 20037508.3428⟩

/-- Attributes of the emitted XML declaration. -/
def xmlDecl : List (String × AttrVal) :=
  [("version", AttrVal.str "1.0"), ("encoding", AttrVal.str "utf-8")]

/-- `Math.ceil(a / b)` for integers (`b ≠ 0`; the `b = 0` case is unreachable
because `range` replaces a falsy step before dividing). -/
def ceilDiv (a b : Int) : Int :=
  if 0 < b then -((-a) / b)
  else if b < 0 then -(a / (-b))
  else 0

/-- The source's `range(start, stop, step)`: an arithmetic progression from
`start` (inclusive) to `stop` (exclusive).  When `stop` is omitted, `start`
serves as the stop and the progression starts at 0 (`stop = start || 0` agrees
with `stop = start` for every integer).  When `step` is falsy (omitted or `0`)
it defaults to `-1` when `stop < start`, else `1`.  The length is
`Math.max(Math.ceil((stop - start) / step), 0)`. -/
def range (start : Int) (stop? : Option Int) (step? : Option Int) : List Int :=
  let start2 := match stop? with | none => 0 | some _ => start
  let stop := match stop? with | none => start | some s => s
  let step := match step? with
    | none => if stop < start2 then -1 else 1
    | some s => if s = 0 then (if stop < start2 then -1 else 1) else s
  let len := (max (ceilDiv (stop - start2) step) 0).toNat
  (List.range len).map (fun i => start2 + (Int.ofNat i) * step)

/-- `2 ^ z` over the integers, as a rational. -/
def pow2 : Int → ℚ
  | .ofNat n => (2 : ℚ) ^ n
  | .negSucc n => 1 / ((2 : ℚ) ^ (n + 1))

/-- Modelled from the spec: `mercator.resolution` comes from the external
`global-mercator` dependency, whose source is not in the repository.  The spec
defines it as meters per pixel at a zoom level for 256x256 tiles:
`circumference / (256 * 2^zoom)` with `circumference = 2 * 20037508.3428`. -/
def resolution (zoom : Int) : ℚ :=
  (2 * 20037508.3428) / (256 * pow2 zoom)

/-- `resolutions(minzoom, maxzoom)`: `range(minzoom, maxzoom + 1)` mapped
through `resolution`. -/
def resolutions (minzoom maxzoom : Int) : List ℚ :=
  (range minzoom (some (maxzoom + 1)) none).map resolution

/-- `normalize(url)`: `url.replace(/$\//, '')` on a defined string.  The
pattern is the sequence end-anchor-then-literal-slash: it matches at position
`i` exactly when `i` is the end of the string and the character at `i` is a
slash.  On a match, `replace` removes the matched slash; otherwise the string
is returned unchanged.  (The `url && ...` guard of the source is applied by
the caller, `Capabilities`.) -/
def normalize (url : String) : String :=
  match (List.range (url.length + 1)).find?
      (fun i => decide (i = url.length) && decide (url.data[i]? = some '/')) with
  | some i => String.mk (url.data.take i ++ url.data.drop (i + 1))
  | none => url

/-- Decimal-free rendering of a rational for serialized attribute/text slots.
The IEEE-double decimal formatting of `xml-js` is not modelled; no claim
inspects these rendered digits. -/
def ratStr (q : ℚ) : String :=
  if q.den = 1 then toString q.num else toString q.num ++ "/" ++ toString q.den

/-- One serialized attribute, with its leading space. -/
def attrStr (a : String × AttrVal) : String :=
  match a.2 with
  | .str s => " " ++ a.1 ++ "=\"" ++ s ++ "\""
  | .num q => " " ++ a.1 ++ "=\"" ++ ratStr q ++ "\""

/-- All serialized attributes of an element. -/
def attrsStr (attrs : List (String × AttrVal)) : String :=
  String.join (attrs.map attrStr)

/-- Newline emitted between serialized elements: nothing when the indentation
width is 0, otherwise a line break. -/
def nlOf (sp : Nat) : String := if sp = 0 then "" else "\n"

/-- Indentation for a nesting depth. -/
def indentOf (sp : Nat) (depth : Nat) : String :=
  String.mk (List.replicate (sp * depth) ' ')

mutual

/-- Modelled from the spec: the serializer (`convert.js2xml` of the external
`xml-js` dependency, in compact mode) renders an element at a nesting depth,
indenting each nested element by `spaces * depth` spaces and separating
elements by newlines; an indentation width of 0 adds no whitespace at all. -/
def serNode (sp depth : Nat) (tag : String) : Node → String
  | .elem attrs none .nil =>
    indentOf sp depth ++ "<" ++ tag ++ attrsStr attrs ++ "/>"
  | .elem attrs (some t) .nil =>
    indentOf sp depth ++ "<" ++ tag ++ attrsStr attrs ++ ">" ++ t ++ "</" ++ tag ++ ">"
  | .elem attrs txt (.cons ct cn rest) =>
    indentOf sp depth ++ "<" ++ tag ++ attrsStr attrs ++ ">" ++ (txt.getD "") ++ nlOf sp
      ++ serChildren sp (depth + 1) (.cons ct cn rest)
      ++ nlOf sp ++ indentOf sp depth ++ "</" ++ tag ++ ">"

/-- Serialize a sibling sequence, newline-separated. -/
def serChildren (sp depth : Nat) : Children → String
  | .nil => ""
  | .cons t n .nil => serNode sp depth t n
  | .cons t n (.cons t2 n2 rest) =>
    serNode sp depth t n ++ nlOf sp ++ serChildren sp depth (.cons t2 n2 rest)

end

/-- Serialize a whole document (declaration plus root) at the given
indentation width.  A negative width is clamped to 0 (unspecified in the
spec; never exercised by a claim). -/
def js2xml (doc : XmlDoc) (spaces : Int) : String :=
  "<?xml" ++ attrsStr doc.decl ++ "?>" ++ nlOf spaces.toNat
    ++ serNode spaces.toNat 0 doc.rootTag doc.root

/-- An element holding only text. -/
def textNode (s : String) : Node := .elem [] (some s) .nil

/-- The XLink `OnlineResource` element pointing at a URL. -/
def olResource (url : String) : Node :=
  .elem [("xmlns:xlink", AttrVal.str "http://www.w3.org/1999/xlink"),
         ("xlink:type", AttrVal.str "simple"),
         ("xlink:href", AttrVal.str url)] none .nil

/-- `Keywords(keywords)`: the `KeywordList` element, one `Keyword` child per
entry (entries are already strings). -/
def Keywords (keywords : List String) : Node :=
  .elem [] none (Children.ofList (keywords.map (fun k => ("Keyword", textNode k))))

/-- The `Service` element produced on the success path of `Service(options)`.
`Abstract` keeps an empty element when no abstract is supplied (the JSON
round trip of `clean` removes the `undefined` `_text` but keeps the object);
`KeywordList` is present exactly when `keywords` is supplied. -/
def serviceNode (o : ServiceOptions) : Node :=
  .elem [] none (Children.ofList (
    [("Name", textNode "OGC:WMS"),
     ("Title", textNode (o.title.getD "")),
     ("Abstract", Node.elem [] o.abstract .nil)]
    ++ (match o.keywords with
        | some ks => [("KeywordList", Keywords ks)]
        | none => [])
    ++ [("OnlineResource", olResource (o.url.getD "")),
        ("Fees", textNode (jsOrStr o.fees "none")),
        ("AccessConstraints", textNode (jsOrStr o.accessConstraints "none"))]))

/-- `Service(options)`: requires a truthy `title` and `url`. -/
def Service (o : ServiceOptions) : Except String Node :=
  if truthyS o.title = false then .error "options.title is required"
  else if truthyS o.url = false then .error "options.url is required"
  else .ok (serviceNode o)

/-- The `HTTP > Get > OnlineResource` body of `DCPType(url)`. -/
def dcpNode (url : String) : Node :=
  .elem [] none (Children.ofList
    [("HTTP", .elem [] none (Children.ofList
      [("Get", .elem [] none (Children.ofList
        [("OnlineResource", olResource url)]))]))])

/-- `DCPType(url)`: requires a truthy url. -/
def DCPType (url : String) : Except String Node :=
  if url = "" then .error "url is required" else .ok (dcpNode url)

/-- `(options.format === 'jpg') ? 'jpeg' : options.format` — the MIME subtype
aliasing applied locally wherever an `image/...` format is constructed. -/
def mimeFormat (f : String) : String := if f = "jpg" then "jpeg" else f

/-- The `Request` element produced on the success path of `Request(options)`,
with the three `DCPType` transport bindings passed in. -/
def requestNode (o : ServiceOptions) (d1 d2 d3 : Node) : Node :=
  .elem [] none (Children.ofList
    [("GetCapabilities", .elem [] none (Children.ofList
        [("Format", textNode "application/vnd.ogc.wms_xml"), ("DCPType", d1)])),
     ("GetMap", .elem [] none (Children.ofList
        [("Format", textNode ("image/" ++ mimeFormat (o.format.getD ""))), ("DCPType", d2)])),
     ("GetFeatureInfo", .elem [] none (Children.ofList
        [("Format", textNode "application/vnd.ogc.gml"),
         ("Format", textNode "text/plain"),
         ("Format", textNode "text/html"), ("DCPType", d3)]))])

/-- `Request(options)`: requires truthy `url` and `format`, then builds the
three operations, each with a `DCPType(url)` binding. -/
def Request (o : ServiceOptions) : Except String Node :=
  if truthyS o.url = false then .error "options.url is required"
  else if truthyS o.format = false then .error "options.format is required"
  else do
    let d1 ← DCPType (o.url.getD "")
    let d2 ← DCPType (o.url.getD "")
    let d3 ← DCPType (o.url.getD "")
    pure (requestNode o d1 d2 d3)

/-- `BoundingBox(bbox, srs)`: attribute-only element; the `SRS` attribute is
omitted (not emitted empty) when absent.  The source's `if (!bbox) throw` is
unreachable: every call site passes one of the constant arrays. -/
def BoundingBox (bbox : BBoxT) (srs : Option String) : Node :=
  .elem ((match srs with | some s => [("SRS", AttrVal.str s)] | none => [])
      ++ [("minx", AttrVal.num bbox.west), ("miny", AttrVal.num bbox.south),
          ("maxx", AttrVal.num bbox.east), ("maxy", AttrVal.num bbox.north)])
    none .nil

/-- The `TileSet` element produced on the success path of `TileSet(options)`.
The caller-supplied bbox is not consulted: the `BoundingBox` always renders
the fixed `BBOX_METERS` constant. -/
def tileSetNode (o : ServiceOptions) : Node :=
  .elem [] none (Children.ofList
    [("SRS", textNode "EPSG:3857"),
     ("BoundingBox", BoundingBox BBOX_METERS (some "EPSG:3857")),
     ("Resolutions", textNode (String.intercalate " "
        ((resolutions (o.minzoom.getD 0) (o.maxzoom.getD 0)).map ratStr))),
     ("Width", textNode "256"),
     ("Height", textNode "256"),
     ("Format", textNode ("image/" ++ mimeFormat (o.format.getD ""))),
     ("Layers", textNode (o.identifier.getD ""))])

/-- `TileSet(options)`: requires a truthy `format` and defined `identifier`,
`minzoom`, `maxzoom` (the latter three are `=== undefined` checks). -/
def TileSet (o : ServiceOptions) : Except String Node :=
  if truthyS o.format = false then .error "options.format is required"
  else if o.identifier = none then .error "options.identifier is required"
  else if o.minzoom = none then .error "options.minzoom is required"
  else if o.maxzoom = none then .error "options.maxzoom is required"
  else .ok (tileSetNode o)

/-- The three `BoundingBox` siblings shared by the `Layer` and its sub-layer:
meters tagged `EPSG:900913`, degrees tagged `EPSG:4326`, meters tagged
`EPSG:3857`. -/
def layerBoundingBoxes : List (String × Node) :=
  [("BoundingBox", BoundingBox BBOX_METERS (some "EPSG:900913")),
   ("BoundingBox", BoundingBox BBOX (some "EPSG:4326")),
   ("BoundingBox", BoundingBox BBOX_METERS (some "EPSG:3857"))]

/-- The `Layer` element produced on the success path of `Layer(options)`,
with its fixed SRS list, the fixed `LatLonBoundingBox`, the three
`BoundingBox` siblings and the nested sub-`Layer`. -/
def layerNode (o : ServiceOptions) : Node :=
  .elem [] none (Children.ofList (
    [("Title", textNode (o.title.getD "")),
     ("SRS", textNode "EPSG:900913"), ("SRS", textNode "EPSG:4326"),
     ("SRS", textNode "CRS:84"), ("SRS", textNode "EPSG:3857"),
     ("LatLonBoundingBox", BoundingBox BBOX none)]
    ++ layerBoundingBoxes
    ++ [("Layer", .elem [] none (Children.ofList (
        [("Name", textNode (o.identifier.getD "")),
         ("Title", textNode (o.title.getD "")),
         ("LatLonBoundingBox", BoundingBox BBOX none)]
        ++ layerBoundingBoxes)))]))

/-- `Layer(options)`: requires `identifier`, `title`, `url` to be defined
(`=== undefined` checks — empty strings pass). -/
def Layer (o : ServiceOptions) : Except String Node :=
  if o.identifier = none then .error "identifier is required"
  else if o.title = none then .error "title is required"
  else if o.url = none then .error "url is required"
  else .ok (layerNode o)

/-- The fixed `Exception` format list. -/
def exceptionFormatsNode : Node :=
  .elem [] none (Children.ofList
    [("Format", textNode "application/vnd.ogc.se_xml"),
     ("Format", textNode "application/vnd.ogc.se_inimage"),
     ("Format", textNode "application/vnd.ogc.se_blank")])

/-- `Capability(options)`: composes `Request`, the fixed exception formats,
the `TileSet` (under `VendorSpecificCapabilities`) and the `Layer`, in the
evaluation order of the source's object literal. -/
def Capability (o : ServiceOptions) : Except String Node := do
  let req ← Request o
  let ts ← TileSet o
  let lay ← Layer o
  pure (.elem [] none (Children.ofList
    [("Request", req),
     ("Exception", exceptionFormatsNode),
     ("VendorSpecificCapabilities", .elem [] none (Children.ofList [("TileSet", ts)])),
     ("Layer", lay)]))

/-- `Capabilities(options)`: checks `normalize(options.url)` for truthiness,
then assembles `Service` and `Capability` under the version-1.1.0 root. -/
def Capabilities (o : ServiceOptions) : Except String Node :=
  if truthyS (o.url.map normalize) = false then .error "<url> is required"
  else do
    let s ← Service o
    let c ← Capability o
    pure (.elem [("version", AttrVal.str "1.1.0")] none
      (Children.ofList [("Service", s), ("Capability", c)]))

/-- `getCapabilities(options)`: effective spaces `options.spaces || SPACES`,
then the assembled document serialized with the XML declaration. -/
def getCapabilities (options : ServiceOptions) : Except String String := do
  let spaces := jsOrInt options.spaces SPACES
  let cap ← Capabilities options
  pure (js2xml ⟨xmlDecl, "WMT_MS_Capabilities", cap⟩ spaces)

/-- The document built by `exception(message, options)`: a
`ServiceExceptionReport` (version 1.1.1) holding one `ServiceException` whose
text is `message || 'foo'`. -/
def exceptionJson (message : Option String) : XmlDoc :=
  ⟨xmlDecl, "ServiceExceptionReport",
   .elem [("version", AttrVal.str "1.1.1")] none
     (Children.ofList [("ServiceException", textNode (jsOrStr message "foo"))])⟩

/-- `exception(message, options)`: never throws; serializes the exception
report with spaces `options.spaces || SPACES`. -/
def exception (message : Option String) (eo : ExceptionOptions) : Except String String :=
  pure (js2xml (exceptionJson message) (jsOrInt eo.spaces SPACES))

/-- The `Capability` element produced on the success path: the node
`Capability(options)` returns once `Request`, `TileSet` and `Layer` have all
succeeded. -/
def capabilityNode (o : ServiceOptions) : Node :=
  .elem [] none (Children.ofList
    [("Request", requestNode o (dcpNode (o.url.getD "")) (dcpNode (o.url.getD ""))
        (dcpNode (o.url.getD ""))),
     ("Exception", exceptionFormatsNode),
     ("VendorSpecificCapabilities", .elem [] none (Children.ofList [("TileSet", tileSetNode o)])),
     ("Layer", layerNode o)])

/-- The root `WMT_MS_Capabilities` element produced on the success path of
`Capabilities(options)`. -/
def capNode (o : ServiceOptions) : Node :=
  .elem [("version", AttrVal.str "1.1.0")] none
    (Children.ofList [("Service", serviceNode o), ("Capability", capabilityNode o)])

/-- The options record of the repository's own test file (`test.js`). -/
def opts0 : ServiceOptions :=
  { title := some "Tile Service"
    url := some "http://localhost:80/WMTS"
    format := some "jpg"
    identifier := some "osm"
    minzoom := some 10
    maxzoom := some 18
    spaces := some 2
    abstract := some "© OSM data"
    bbox := some ⟨-180, -85, 180, 85⟩
    keywords := some ["world", "imagery", "wms-c"] }

/-- The six required fields of `getCapabilities`. -/
inductive ReqField where
  | title
  | url
  | format
  | identifier
  | minzoom
  | maxzoom
deriving DecidableEq

/-- The named field is missing (`undefined`) from the options. -/
def isMissingB (f : ReqField) (o : ServiceOptions) : Bool :=
  match f with
  | .title => o.title.isNone
  | .url => o.url.isNone
  | .format => o.format.isNone
  | .identifier => o.identifier.isNone
  | .minzoom => o.minzoom.isNone
  | .maxzoom => o.maxzoom.isNone

/-- The other five required fields are supplied in a form that passes their
checks: the string fields truthy, the zoom fields defined. -/
def suppliedExceptB (f : ReqField) (o : ServiceOptions) : Bool :=
  match f with
  | .title => truthyS o.url && truthyS o.format && o.identifier.isSome
      && o.minzoom.isSome && o.maxzoom.isSome
  | .url => truthyS o.title && truthyS o.format && o.identifier.isSome
      && o.minzoom.isSome && o.maxzoom.isSome
  | .format => truthyS o.title && truthyS o.url && o.identifier.isSome
      && o.minzoom.isSome && o.maxzoom.isSome
  | .identifier => truthyS o.title && truthyS o.url && truthyS o.format
      && o.minzoom.isSome && o.maxzoom.isSome
  | .minzoom => truthyS o.title && truthyS o.url && truthyS o.format
      && o.identifier.isSome && o.maxzoom.isSome
  | .maxzoom => truthyS o.title && truthyS o.url && truthyS o.format
      && o.identifier.isSome && o.minzoom.isSome

/-- The error message the source raises for each missing required field. -/
def reqMsg : ReqField → String
  | .title => "options.title is required"
  | .url => "<url> is required"
  | .format => "options.format is required"
  | .identifier => "options.identifier is required"
  | .minzoom => "options.minzoom is required"
  | .maxzoom => "options.maxzoom is required"

/-- The plain name of each required field. -/
def reqFieldName : ReqField → String
  | .title => "title"
  | .url => "url"
  | .format => "format"
  | .identifier => "identifier"
  | .minzoom => "minzoom"
  | .maxzoom => "maxzoom"

/-- The indentation width the serializer is actually handed: the supplied
`spaces` when non-zero, the default 2 when `spaces` is absent or `0` (JS `||`
treats `0` as absent). -/
def specIndent : Option Int → Int
  | none => 2
  | some s => if s = 0 then 2 else s

theorem ok_bind {α β : Type} (a : α) (f : α → Except String β) :
    (Except.ok a : Except String α) >>= f = f a := rfl

theorem error_bind {α β : Type} (e : String) (f : α → Except String β) :
    (Except.error e : Except String α) >>= f = .error e := rfl

/-- The trailing-slash pattern of `normalize` never matches: a position can
not both be the end of the string and carry a character. -/
theorem normalize_id (s : String) : normalize s = s := by
  unfold normalize
  have h0 : (List.range (s.length + 1)).find?
      (fun i => decide (i = s.length) && decide (s.data[i]? = some '/')) = none := by
    rw [List.find?_eq_none]
    intro i hi
    by_cases h : i = s.length
    · subst h
      have hnone : s.data[s.length]? = none := by
        rw [List.getElem?_eq_none_iff]
        exact Nat.le_refl _
      simp [hnone]
    · simp [h]
  rw [h0]

theorem truthyS_eq_true {v : Option String} :
    truthyS v = true ↔ ∃ s, v = some s ∧ s ≠ "" := by
  cases v with
  | none => simp [truthyS]
  | some s => simp [truthyS]

/-- `Capabilities` characterized as a single first-failure-wins check chain
followed by the success node: checks run in builder-dependency order
(`Capabilities` url, `Service` title, `Request` format, `TileSet`
identifier/minzoom/maxzoom); the later checks of `Service`, `Request`,
`TileSet`, `Layer` and `DCPType` are subsumed by earlier ones. -/
theorem Capabilities_spec (o : ServiceOptions) :
    Capabilities o =
      if truthyS o.url = false then .error "<url> is required"
      else if truthyS o.title = false then .error "options.title is required"
      else if truthyS o.format = false then .error "options.format is required"
      else if o.identifier = none then .error "options.identifier is required"
      else if o.minzoom = none then .error "options.minzoom is required"
      else if o.maxzoom = none then .error "options.maxzoom is required"
      else .ok (capNode o) := by
  have hmap : truthyS (o.url.map normalize) = truthyS o.url := by
    cases o.url with
    | none => rfl
    | some u => simp [normalize_id]
  unfold Capabilities
  rw [hmap]
  by_cases hu : truthyS o.url = false
  · rw [if_pos hu, if_pos hu]
  · rw [if_neg hu, if_neg hu]
    have hu1 : truthyS o.url = true := by
      cases h : truthyS o.url
      · exact absurd h hu
      · rfl
    obtain ⟨u, hurl, hu0⟩ := truthyS_eq_true.mp hu1
    by_cases ht : truthyS o.title = false
    · rw [if_pos ht]
      have hserv : Service o = .error "options.title is required" := by
        unfold Service
        rw [if_pos ht]
      rw [hserv, error_bind]
    · rw [if_neg ht]
      have ht1 : truthyS o.title = true := by
        cases h : truthyS o.title
        · exact absurd h ht
        · rfl
      obtain ⟨tt, htitle, ht0⟩ := truthyS_eq_true.mp ht1
      have hserv : Service o = .ok (serviceNode o) := by
        unfold Service
        rw [if_neg ht, if_neg hu]
      rw [hserv, ok_bind]
      by_cases hf : truthyS o.format = false
      · rw [if_pos hf]
        have hreq : Request o = .error "options.format is required" := by
          unfold Request
          rw [if_neg hu, if_pos hf]
        have hcap : Capability o = .error "options.format is required" := by
          unfold Capability
          rw [hreq, error_bind]
        rw [hcap, error_bind]
      · rw [if_neg hf]
        have hgd : o.url.getD "" = u := by
          rw [hurl]
          rfl
        have hdcp : DCPType (o.url.getD "") = .ok (dcpNode (o.url.getD "")) := by
          unfold DCPType
          rw [if_neg]
          rw [hgd]
          exact hu0
        have hreq : Request o = .ok (requestNode o (dcpNode (o.url.getD ""))
            (dcpNode (o.url.getD "")) (dcpNode (o.url.getD ""))) := by
          unfold Request
          rw [if_neg hu, if_neg hf, hdcp]
          simp only [ok_bind]
          rfl
        by_cases hid : o.identifier = none
        · rw [if_pos hid]
          have hts : TileSet o = .error "options.identifier is required" := by
            unfold TileSet
            rw [if_neg hf, if_pos hid]
          have hcap : Capability o = .error "options.identifier is required" := by
            unfold Capability
            rw [hreq, ok_bind, hts, error_bind]
          rw [hcap, error_bind]
        · rw [if_neg hid]
          by_cases hmn : o.minzoom = none
          · rw [if_pos hmn]
            have hts : TileSet o = .error "options.minzoom is required" := by
              unfold TileSet
              rw [if_neg hf, if_neg hid, if_pos hmn]
            have hcap : Capability o = .error "options.minzoom is required" := by
              unfold Capability
              rw [hreq, ok_bind, hts, error_bind]
            rw [hcap, error_bind]
          · rw [if_neg hmn]
            by_cases hmx : o.maxzoom = none
            · rw [if_pos hmx]
              have hts : TileSet o = .error "options.maxzoom is required" := by
                unfold TileSet
                rw [if_neg hf, if_neg hid, if_neg hmn, if_pos hmx]
              have hcap : Capability o = .error "options.maxzoom is required" := by
                unfold Capability
                rw [hreq, ok_bind, hts, error_bind]
              rw [hcap, error_bind]
            · rw [if_neg hmx]
              have hts : TileSet o = .ok (tileSetNode o) := by
                unfold TileSet
                rw [if_neg hf, if_neg hid, if_neg hmn, if_neg hmx]
              have hlay : Layer o = .ok (layerNode o) := by
                unfold Layer
                rw [if_neg hid, if_neg (by simp [htitle]), if_neg (by simp [hurl])]
              have hcap : Capability o = .ok (capabilityNode o) := by
                unfold Capability
                rw [hreq, ok_bind, hts, ok_bind, hlay, ok_bind]
                rfl
              rw [hcap, ok_bind]
              rfl

/-- `getCapabilities` characterized through `Capabilities_spec`: same check
chain, success serializes the document at `options.spaces || SPACES`. -/
theorem getCapabilities_spec (o : ServiceOptions) :
    getCapabilities o =
      if truthyS o.url = false then .error "<url> is required"
      else if truthyS o.title = false then .error "options.title is required"
      else if truthyS o.format = false then .error "options.format is required"
      else if o.identifier = none then .error "options.identifier is required"
      else if o.minzoom = none then .error "options.minzoom is required"
      else if o.maxzoom = none then .error "options.maxzoom is required"
      else .ok (js2xml ⟨xmlDecl, "WMT_MS_Capabilities", capNode o⟩
        (jsOrInt o.spaces SPACES)) := by
  unfold getCapabilities
  rw [Capabilities_spec]
  split_ifs <;> rfl

/-- Any successfully returned root element is `capNode`. -/
theorem Capabilities_ok_node {o : ServiceOptions} {t : Node}
    (h : Capabilities o = .ok t) : t = capNode o := by
  rw [Capabilities_spec] at h
  split_ifs at h
  all_goals simp_all

theorem pow2_eq_zpow (z : Int) : pow2 z = (2 : ℚ) ^ z := by
  cases z with
  | ofNat n => simp [pow2]
  | negSucc n => simp [pow2, zpow_negSucc, one_div]

/-- `resolution` is strictly decreasing in the zoom level. -/
theorem resolution_lt {z w : Int} (h : z < w) : resolution w < resolution z := by
  unfold resolution
  rw [pow2_eq_zpow, pow2_eq_zpow]
  have hz : (0 : ℚ) < 2 ^ z := zpow_pos (by norm_num) z
  exact div_lt_div_of_pos_left (by norm_num) (by positivity)
    (mul_lt_mul_of_pos_left (zpow_lt_zpow_right₀ (by norm_num) h) (by norm_num))

/-- C3 (counterexample): the claim says `resolutions(minzoom, maxzoom)` is
empty for every `maxzoom < minzoom`; but `resolutions 2 0` is the singleton
`[resolution 2]`, because `range(2, 1)` defaults its step to `-1` when the
stop lies below the start. -/
theorem C3_counterexample :
    resolutions 2 0 = [resolution 2] ∧ resolutions 2 0 ≠ [] := by
  constructor
  · rfl
  · rw [show resolutions 2 0 = [resolution 2] from rfl]
    simp

/-- C3 (amended): for `maxzoom < minzoom`, `resolutions` signals no error and
returns a sequence of length `minzoom - maxzoom - 1` (descending from
`minzoom`), which is empty exactly when `maxzoom = minzoom - 1`. -/
theorem C3_descending_tail (minzoom maxzoom : Int) (h : maxzoom < minzoom) :
    (resolutions minzoom maxzoom).length = (minzoom - maxzoom - 1).toNat
  ∧ (resolutions minzoom maxzoom = [] ↔ maxzoom = minzoom - 1) := by
  have hmax : ∀ a : Int, (max a 0).toNat = a.toNat := by
    intro a
    rcases le_total a 0 with ha | ha
    · rw [max_eq_right ha, Int.toNat_of_nonpos ha]
      rfl
    · rw [max_eq_left ha]
  have hlen : (resolutions minzoom maxzoom).length = (minzoom - maxzoom - 1).toNat := by
    have h2p : ceilDiv (maxzoom + 1 - minzoom) (-1) = minzoom - maxzoom - 1 := by
      unfold ceilDiv
      rw [if_neg (by norm_num), if_pos (by norm_num)]
      simp only [neg_neg]
      omega
    have h2n : ceilDiv (maxzoom + 1 - minzoom) 1 = maxzoom + 1 - minzoom := by
      unfold ceilDiv
      rw [if_pos (by norm_num)]
      omega
    unfold resolutions range
    by_cases hlt : maxzoom + 1 < minzoom
    · simp only [hlt, if_true, h2p, List.length_map, List.length_range, hmax]
    · simp only [hlt, if_false, h2n, List.length_map, List.length_range, hmax]
      omega
  refine ⟨hlen, ?_⟩
  rw [← List.length_eq_zero, hlen]
  omega

/-- C3_descending_tail instantiated at `minzoom = 2, maxzoom = 0`. -/
theorem C3_descending_tail_witness :
    (resolutions 2 0).length = ((2 : Int) - 0 - 1).toNat
  ∧ (resolutions 2 0 = [] ↔ (0 : Int) = 2 - 1) :=
  C3_descending_tail 2 0 (by decide)

/-- C5: `resolutions(z, z)` is the singleton `[resolution z]` for every
integer zoom, and `resolutions(10, 18)` holds exactly 9 strictly decreasing
values. -/
theorem C5_resolutions_values :
    (∀ z : Int, resolutions z z = [resolution z])
  ∧ (resolutions 10 18).length = 9
  ∧ (resolutions 10 18).Chain' (fun a b => b < a) := by
  refine ⟨?_, ?_, ?_⟩
  · intro z
    unfold resolutions range
    have hstep : ¬(z + 1 < z) := by omega
    simp only [hstep, if_false]
    have h1 : ceilDiv (z + 1 - z) 1 = 1 := by
      have he : z + 1 - z = 1 := by ring
      rw [he]
      decide
    rw [h1]
    simp [List.range_succ]
  · have hr : range 10 (some (18 + 1)) none = [10, 11, 12, 13, 14, 15, 16, 17, 18] := by
      decide
    unfold resolutions
    rw [hr]
    rfl
  · have hr : range 10 (some (18 + 1)) none = [10, 11, 12, 13, 14, 15, 16, 17, 18] := by
      decide
    unfold resolutions
    rw [hr]
    simp only [List.map_cons, List.map_nil, List.chain'_cons, List.chain'_singleton, and_true]
    refine ⟨?_, ?_, ?_, ?_, ?_, ?_, ?_, ?_⟩ <;> exact resolution_lt (by norm_num)

/-- C8: `normalize` is the identity on every non-empty URL string — the
trailing-slash pattern never matches, even on a URL ending in a slash. -/
theorem C8_normalize_identity (url : String) (_h : url ≠ "") : normalize url = url :=
  normalize_id url

/-- C8_normalize_identity instantiated at a URL ending in a slash. -/
theorem C8_normalize_identity_witness :
    "http://localhost:5000/" ≠ "" ∧
      normalize "http://localhost:5000/" = "http://localhost:5000/" :=
  ⟨by decide, C8_normalize_identity "http://localhost:5000/" (by decide)⟩

/-- C9: calling `exception` with the empty string behaves exactly like
omitting the message — the emitted `ServiceException` text is the placeholder
`foo`, not the empty string. -/
theorem C9_empty_message :
    (∀ eo : ExceptionOptions, exception (some "") eo = exception none eo)
  ∧ ((exceptionJson (some "")).root.childNamed "ServiceException").bind Node.text
      = some "foo" :=
  ⟨fun _ => rfl, rfl⟩

/-- C6 (counterexample): the claim says a supplied message appears verbatim as
the `ServiceException` text; but the supplied empty string is replaced by the
placeholder `foo`. -/
theorem C6_counterexample :
    ((exceptionJson (some "")).root.childNamed "ServiceException").bind Node.text
      = some "foo"
  ∧ (some "foo" : Option String) ≠ some "" :=
  ⟨rfl, by decide⟩

/-- C6 (amended): `exception` never fails for any input; an omitted message is
the placeholder `foo`; and for a supplied non-empty message the document is a
`ServiceExceptionReport` root with version attribute `1.1.1` containing a
single `ServiceException` element whose text is exactly the message. -/
theorem C6_exception_report :
    (∀ (m : Option String) (eo : ExceptionOptions), (exception m eo).isOk = true)
  ∧ (∀ eo : ExceptionOptions, exception none eo = exception (some "foo") eo)
  ∧ (∀ m : String, m ≠ "" →
      exceptionJson (some m) = ⟨xmlDecl, "ServiceExceptionReport",
        .elem [("version", AttrVal.str "1.1.1")] none
          (Children.ofList [("ServiceException", textNode m)])⟩) := by
  refine ⟨fun _ _ => rfl, fun _ => rfl, fun m hm => ?_⟩
  unfold exceptionJson
  simp [jsOrStr, hm]

/-- C6_exception_report instantiated at the spec's example message. -/
theorem C6_exception_report_witness :
    exceptionJson (some "Layer not found") = ⟨xmlDecl, "ServiceExceptionReport",
      .elem [("version", AttrVal.str "1.1.1")] none
        (Children.ofList [("ServiceException", textNode "Layer not found")])⟩ :=
  C6_exception_report.2.2 "Layer not found" (by decide)

/-- C4 (counterexample): requesting `spaces = 0` does not produce
whitespace-free output — `options.spaces || SPACES` treats `0` as absent, so
the document is serialized at the default width 2 and contains newlines,
while a genuine width-0 serialization contains none. -/
theorem C4_counterexample :
    exception (some "x") ⟨some 0⟩ = .ok (js2xml (exceptionJson (some "x")) 2)
  ∧ ('\n' ∈ (js2xml (exceptionJson (some "x")) 2).data)
  ∧ ¬('\n' ∈ (js2xml (exceptionJson (some "x")) 0).data) := by
  refine ⟨rfl, by decide, by decide⟩

/-- C4 (amended): the indentation width handed to the serializer equals
`options.spaces` when supplied and non-zero, and falls back to the default 2
when `spaces` is absent or `0`; `spaces = 0` therefore does not yield
whitespace-free output. -/
theorem C4_indentation (m : Option String) (eo : ExceptionOptions)
    (o : ServiceOptions) (s : Int) (hs : s ≠ 0) :
    specIndent (some s) = s ∧ specIndent none = 2 ∧ specIndent (some 0) = 2
  ∧ exception m eo = .ok (js2xml (exceptionJson m) (specIndent eo.spaces))
  ∧ getCapabilities o = (Capabilities o).map
      (fun n => js2xml ⟨xmlDecl, "WMT_MS_Capabilities", n⟩ (specIndent o.spaces)) := by
  have hjs : ∀ v : Option Int, jsOrInt v SPACES = specIndent v := by
    intro v
    cases v <;> rfl
  refine ⟨by simp [specIndent, hs], rfl, rfl, ?_, ?_⟩
  · unfold exception
    rw [hjs]
    rfl
  · unfold getCapabilities
    cases hc : Capabilities o with
    | error e => rfl
    | ok a =>
      simp only [hjs]
      rfl

/-- C4_indentation instantiated at width 4 and the test options. -/
theorem C4_indentation_witness :
    specIndent (some 4) = 4 ∧ specIndent none = 2 ∧ specIndent (some 0) = 2
  ∧ exception (some "x") ⟨some 4⟩ = .ok (js2xml (exceptionJson (some "x")) (specIndent (some 4)))
  ∧ getCapabilities opts0 = (Capabilities opts0).map
      (fun n => js2xml ⟨xmlDecl, "WMT_MS_Capabilities", n⟩ (specIndent opts0.spaces)) :=
  C4_indentation (some "x") ⟨some 4⟩ opts0 4 (by decide)

/-- C1 (counterexample): the claim says every `Layer`/sub-`Layer`
`BoundingBox` carries the fixed Web-Mercator-meters constant; but at the test
options the `Layer`'s second `BoundingBox` (the one tagged `EPSG:4326`)
carries `minx = -180` from the degrees constant, not `-20037508.3428`. -/
theorem C1_counterexample :
    ((Capabilities opts0).toOption.bind (fun t => (t.childNamed "Capability").bind
        (fun c => (c.childNamed "Layer").map (fun l => (l.childrenNamed "BoundingBox").map
          (fun bb => bb.attr "minx")))))
      = some [some (AttrVal.num (-20037508.3428)), some (AttrVal.num (-180)),
              some (AttrVal.num (-20037508.3428))]
  ∧ (-180 : ℚ) ≠ -20037508.3428 := by
  constructor
  · rfl
  · norm_num

/-- C1 (amended): the emitted geometry is independent of the caller-supplied
`bbox` for every options record, and on success the `TileSet` `BoundingBox`
carries the fixed meters constant; the `Layer` and sub-`Layer` each carry the
three fixed `BoundingBox` elements (meters tagged `EPSG:900913`, degrees
tagged `EPSG:4326`, meters tagged `EPSG:3857`) and the fixed degrees
`LatLonBoundingBox`. -/
theorem C1_fixed_geometry (o : ServiceOptions) (b : Option BBoxT) (t : Node)
    (h : Capabilities o = .ok t) :
    Capabilities { o with bbox := b } = Capabilities o
  ∧ ((t.childNamed "Capability").bind (fun c => (c.childNamed "VendorSpecificCapabilities").bind
      (fun v => (v.childNamed "TileSet").bind (fun ts => ts.childNamed "BoundingBox"))))
      = some (BoundingBox BBOX_METERS (some "EPSG:3857"))
  ∧ ((t.childNamed "Capability").bind (fun c => (c.childNamed "Layer").map
      (fun l => l.childrenNamed "BoundingBox")))
      = some [BoundingBox BBOX_METERS (some "EPSG:900913"), BoundingBox BBOX (some "EPSG:4326"),
              BoundingBox BBOX_METERS (some "EPSG:3857")]
  ∧ ((t.childNamed "Capability").bind (fun c => (c.childNamed "Layer").bind
      (fun l => (l.childNamed "Layer").map (fun sub => sub.childrenNamed "BoundingBox"))))
      = some [BoundingBox BBOX_METERS (some "EPSG:900913"), BoundingBox BBOX (some "EPSG:4326"),
              BoundingBox BBOX_METERS (some "EPSG:3857")]
  ∧ ((t.childNamed "Capability").bind (fun c => (c.childNamed "Layer").bind
      (fun l => l.childNamed "LatLonBoundingBox"))) = some (BoundingBox BBOX none)
  ∧ ((t.childNamed "Capability").bind (fun c => (c.childNamed "Layer").bind
      (fun l => (l.childNamed "Layer").bind (fun sub => sub.childNamed "LatLonBoundingBox"))))
      = some (BoundingBox BBOX none) := by
  have ht : t = capNode o := Capabilities_ok_node h
  subst ht
  exact ⟨rfl, rfl, rfl, rfl, rfl, rfl⟩

/-- C1_fixed_geometry instantiated at the test options and a non-world bbox. -/
theorem C1_fixed_geometry_witness :
    Capabilities { opts0 with bbox := some ⟨1, 2, 3, 4⟩ } = Capabilities opts0
  ∧ (((capNode opts0).childNamed "Capability").bind
      (fun c => (c.childNamed "VendorSpecificCapabilities").bind
      (fun v => (v.childNamed "TileSet").bind (fun ts => ts.childNamed "BoundingBox"))))
      = some (BoundingBox BBOX_METERS (some "EPSG:3857"))
  ∧ (((capNode opts0).childNamed "Capability").bind (fun c => (c.childNamed "Layer").map
      (fun l => l.childrenNamed "BoundingBox")))
      = some [BoundingBox BBOX_METERS (some "EPSG:900913"), BoundingBox BBOX (some "EPSG:4326"),
              BoundingBox BBOX_METERS (some "EPSG:3857")]
  ∧ (((capNode opts0).childNamed "Capability").bind (fun c => (c.childNamed "Layer").bind
      (fun l => (l.childNamed "Layer").map (fun sub => sub.childrenNamed "BoundingBox"))))
      = some [BoundingBox BBOX_METERS (some "EPSG:900913"), BoundingBox BBOX (some "EPSG:4326"),
              BoundingBox BBOX_METERS (some "EPSG:3857")]
  ∧ (((capNode opts0).childNamed "Capability").bind (fun c => (c.childNamed "Layer").bind
      (fun l => l.childNamed "LatLonBoundingBox"))) = some (BoundingBox BBOX none)
  ∧ (((capNode opts0).childNamed "Capability").bind (fun c => (c.childNamed "Layer").bind
      (fun l => (l.childNamed "Layer").bind (fun sub => sub.childNamed "LatLonBoundingBox"))))
      = some (BoundingBox BBOX none) :=
  C1_fixed_geometry opts0 (some ⟨1, 2, 3, 4⟩) (capNode opts0) rfl

/-- C7: for every accepted options record, the MIME subtype emitted in the
`TileSet` `Format` and in the `Request` `GetMap` `Format` is `image/` followed
by the normalized format (`jpg` mapped to `jpeg`, `png` and `jpeg` unchanged),
while the identifier is emitted unchanged in the `TileSet` `Layers` and the
sub-`Layer` `Name`. -/
theorem C7_format_aliasing (o : ServiceOptions) (fmt idv : String) (t : Node)
    (hfmt : o.format = some fmt) (hid : o.identifier = some idv)
    (_hmem : fmt = "png" ∨ fmt = "jpeg" ∨ fmt = "jpg")
    (h : Capabilities o = .ok t) :
    ((t.childNamed "Capability").bind (fun c => (c.childNamed "VendorSpecificCapabilities").bind
      (fun v => (v.childNamed "TileSet").bind (fun ts => (ts.childNamed "Format").bind Node.text))))
      = some ("image/" ++ mimeFormat fmt)
  ∧ ((t.childNamed "Capability").bind (fun c => (c.childNamed "Request").bind
      (fun r => (r.childNamed "GetMap").bind (fun g => (g.childNamed "Format").bind Node.text))))
      = some ("image/" ++ mimeFormat fmt)
  ∧ mimeFormat "jpg" = "jpeg" ∧ mimeFormat "png" = "png" ∧ mimeFormat "jpeg" = "jpeg"
  ∧ ((t.childNamed "Capability").bind (fun c => (c.childNamed "VendorSpecificCapabilities").bind
      (fun v => (v.childNamed "TileSet").bind (fun ts => (ts.childNamed "Layers").bind Node.text))))
      = some idv
  ∧ ((t.childNamed "Capability").bind (fun c => (c.childNamed "Layer").bind
      (fun l => (l.childNamed "Layer").bind (fun sub => (sub.childNamed "Name").bind Node.text))))
      = some idv := by
  have ht : t = capNode o := Capabilities_ok_node h
  subst ht
  have hf2 : o.format.getD "" = fmt := by
    rw [hfmt]
    rfl
  have hi2 : o.identifier.getD "" = idv := by
    rw [hid]
    rfl
  refine ⟨?_, ?_, rfl, rfl, rfl, ?_, ?_⟩
  · rw [← hf2]
    rfl
  · rw [← hf2]
    rfl
  · rw [← hi2]
    rfl
  · rw [← hi2]
    rfl

/-- C7_format_aliasing instantiated at the test options (`format = jpg`,
`identifier = osm`). -/
theorem C7_format_aliasing_witness :
    (((capNode opts0).childNamed "Capability").bind
      (fun c => (c.childNamed "VendorSpecificCapabilities").bind
      (fun v => (v.childNamed "TileSet").bind (fun ts => (ts.childNamed "Format").bind Node.text))))
      = some ("image/" ++ mimeFormat "jpg")
  ∧ (((capNode opts0).childNamed "Capability").bind (fun c => (c.childNamed "Request").bind
      (fun r => (r.childNamed "GetMap").bind (fun g => (g.childNamed "Format").bind Node.text))))
      = some ("image/" ++ mimeFormat "jpg")
  ∧ mimeFormat "jpg" = "jpeg" ∧ mimeFormat "png" = "png" ∧ mimeFormat "jpeg" = "jpeg"
  ∧ (((capNode opts0).childNamed "Capability").bind
      (fun c => (c.childNamed "VendorSpecificCapabilities").bind
      (fun v => (v.childNamed "TileSet").bind (fun ts => (ts.childNamed "Layers").bind Node.text))))
      = some "osm"
  ∧ (((capNode opts0).childNamed "Capability").bind (fun c => (c.childNamed "Layer").bind
      (fun l => (l.childNamed "Layer").bind (fun sub => (sub.childNamed "Name").bind Node.text))))
      = some "osm" :=
  C7_format_aliasing opts0 "jpg" "osm" (capNode opts0) rfl rfl (Or.inr (Or.inr rfl)) rfl

/-- C2: whenever any of the six required fields is missing (`undefined`),
`getCapabilities` produces no document (it fails); and when exactly one
required field is missing while the other five pass their checks, the failure
is the single descriptive error of the source naming that field. -/
theorem C2_missing_required (o : ServiceOptions) :
    ((∃ f : ReqField, isMissingB f o = true) → (getCapabilities o).isOk = false)
  ∧ (∀ f : ReqField, isMissingB f o = true → suppliedExceptB f o = true →
      getCapabilities o = .error (reqMsg f)) := by
  constructor
  · rintro ⟨f, hf⟩
    rw [getCapabilities_spec]
    split_ifs with h1 h2 h3 h4 h5 h6
    · rfl
    · rfl
    · rfl
    · rfl
    · rfl
    · rfl
    · exfalso
      cases f with
      | title =>
        simp only [isMissingB, Option.isNone_iff_eq_none] at hf
        rw [hf] at h2
        exact h2 rfl
      | url =>
        simp only [isMissingB, Option.isNone_iff_eq_none] at hf
        rw [hf] at h1
        exact h1 rfl
      | format =>
        simp only [isMissingB, Option.isNone_iff_eq_none] at hf
        rw [hf] at h3
        exact h3 rfl
      | identifier =>
        simp only [isMissingB, Option.isNone_iff_eq_none] at hf
        exact h4 hf
      | minzoom =>
        simp only [isMissingB, Option.isNone_iff_eq_none] at hf
        exact h5 hf
      | maxzoom =>
        simp only [isMissingB, Option.isNone_iff_eq_none] at hf
        exact h6 hf
  · intro f hf hs
    rw [getCapabilities_spec]
    cases f with
    | title =>
      simp only [isMissingB, Option.isNone_iff_eq_none] at hf
      simp only [suppliedExceptB, Bool.and_eq_true] at hs
      obtain ⟨⟨⟨⟨hsu, hsf⟩, hsi⟩, hsmn⟩, hsmx⟩ := hs
      rw [if_neg (by simp [hsu]), if_pos (by rw [hf]; rfl)]
      rfl
    | url =>
      simp only [isMissingB, Option.isNone_iff_eq_none] at hf
      rw [if_pos (by rw [hf]; rfl)]
      rfl
    | format =>
      simp only [isMissingB, Option.isNone_iff_eq_none] at hf
      simp only [suppliedExceptB, Bool.and_eq_true] at hs
      obtain ⟨⟨⟨⟨hst, hsu⟩, hsi⟩, hsmn⟩, hsmx⟩ := hs
      rw [if_neg (by simp [hsu]), if_neg (by simp [hst]), if_pos (by rw [hf]; rfl)]
      rfl
    | identifier =>
      simp only [isMissingB, Option.isNone_iff_eq_none] at hf
      simp only [suppliedExceptB, Bool.and_eq_true] at hs
      obtain ⟨⟨⟨⟨hst, hsu⟩, hsf⟩, hsmn⟩, hsmx⟩ := hs
      rw [if_neg (by simp [hsu]), if_neg (by simp [hst]), if_neg (by simp [hsf]),
        if_pos hf]
      rfl
    | minzoom =>
      simp only [isMissingB, Option.isNone_iff_eq_none] at hf
      simp only [suppliedExceptB, Bool.and_eq_true] at hs
      obtain ⟨⟨⟨⟨hst, hsu⟩, hsf⟩, hsi⟩, hsmx⟩ := hs
      rw [if_neg (by simp [hsu]), if_neg (by simp [hst]), if_neg (by simp [hsf]),
        if_neg (Option.isSome_iff_ne_none.mp hsi), if_pos hf]
      rfl
    | maxzoom =>
      simp only [isMissingB, Option.isNone_iff_eq_none] at hf
      simp only [suppliedExceptB, Bool.and_eq_true] at hs
      obtain ⟨⟨⟨⟨hst, hsu⟩, hsf⟩, hsi⟩, hsmn⟩ := hs
      rw [if_neg (by simp [hsu]), if_neg (by simp [hst]), if_neg (by simp [hsf]),
        if_neg (Option.isSome_iff_ne_none.mp hsi),
        if_neg (Option.isSome_iff_ne_none.mp hsmn), if_pos hf]
      rfl

/-- C2_missing_required instantiated at the test options with `minzoom`
removed: the single error names `minzoom`. -/
theorem C2_missing_required_witness :
    getCapabilities { opts0 with minzoom := none } = .error (reqMsg ReqField.minzoom) :=
  (C2_missing_required { opts0 with minzoom := none }).2 ReqField.minzoom (by decide) (by decide)

/-- C10: with the other required fields supplied, an empty-string
`identifier` is accepted (only `undefined` is rejected, via `===`), while an
empty-string `title`, `url` or `format` fails validation (those checks test
JS falsiness). -/
theorem C10_empty_identifier_ok (o : ServiceOptions)
    (ht : truthyS o.title = true) (hu : truthyS o.url = true)
    (hf : truthyS o.format = true) (hmn : o.minzoom.isSome = true)
    (hmx : o.maxzoom.isSome = true) :
    (getCapabilities { o with identifier := some "" }).isOk = true
  ∧ (getCapabilities { o with title := some "" }).isOk = false
  ∧ (getCapabilities { o with url := some "" }).isOk = false
  ∧ (getCapabilities { o with format := some "" }).isOk = false := by
  have hmn2 : o.minzoom ≠ none := Option.isSome_iff_ne_none.mp hmn
  have hmx2 : o.maxzoom ≠ none := Option.isSome_iff_ne_none.mp hmx
  refine ⟨?_, ?_, ?_, ?_⟩
  · rw [getCapabilities_spec]
    rw [if_neg (by simp [hu]), if_neg (by simp [ht]), if_neg (by simp [hf]),
      if_neg (by simp), if_neg (by simp [hmn2]), if_neg (by simp [hmx2])]
    rfl
  · rw [getCapabilities_spec]
    rw [if_neg (by simp [hu]), if_pos (by rfl)]
    rfl
  · rw [getCapabilities_spec]
    rw [if_pos (by rfl)]
    rfl
  · rw [getCapabilities_spec]
    rw [if_neg (by simp [hu]), if_neg (by simp [ht]), if_pos (by rfl)]
    rfl

/-- C10_empty_identifier_ok instantiated at the test options. -/
theorem C10_empty_identifier_ok_witness :
    (getCapabilities { opts0 with identifier := some "" }).isOk = true
  ∧ (getCapabilities { opts0 with title := some "" }).isOk = false
  ∧ (getCapabilities { opts0 with url := some "" }).isOk = false
  ∧ (getCapabilities { opts0 with format := some "" }).isOk = false :=
  C10_empty_identifier_ok opts0 (by decide) (by decide) (by decide) (by decide) (by decide)

end WmsC
